import Mathlib

/-!
Formal model of the InfoBridgeAI appointment-booking engine.

The definitions below are shallow embeddings of the Python source in
`src/app101.py` and `src/infobridge.py`.  The repository contains two
variants of most components (an older one in `infobridge.py` and a newer
one in `app101.py`); where a claim cites both, both are modelled.
Wall-clock times are modelled as natural numbers (seconds), calendar
instants as integers (minutes from an arbitrary origin on the appointment
day), and Python's `None`-able values as `Option`.
-/

/-! ## Circuit breakers

`CircuitBreaker` models `infobridge.py`'s `CircuitBreaker` (lines 762-801):
states `closed / open / half_open`, a cumulative `failure_count`, a
half-open `success_count`, and `last_failure_time`.  `CircuitBreaker101`
models `app101.py`'s `CircuitBreaker` (lines 346-375), which has only an
`is_open` flag and no half-open state.  A call is modelled by the time at
which it happens (`now`, for `time.time()`) and whether the wrapped
function succeeds (`ok`); the lock in the app101 variant only guards the
counter updates and does not affect the sequential semantics modelled
here. -/

inductive CBState
  | closed
  | opened
  | halfOpen
deriving DecidableEq

/-- The Python source represents the states as the strings `'closed'`,
`'open'`, `'half_open'`; `CBState.opened` stands for `'open'`. -/
structure CircuitBreaker where
  failure_threshold : Nat
  recovery_timeout : Nat
  success_threshold : Nat
  failure_count : Nat
  success_count : Nat
  last_failure_time : Option Nat
  state : CBState
deriving DecidableEq

/-- `CircuitBreaker.__init__` of `infobridge.py` (defaults 5, 60, 2). -/
def CircuitBreaker.init (ft rt st : Nat) : CircuitBreaker :=
  { failure_threshold := ft, recovery_timeout := rt, success_threshold := st,
    failure_count := 0, success_count := 0, last_failure_time := none,
    state := .closed }

inductive CBOutcome
  | rejectedOpen
  | succeeded
  | raised
deriving DecidableEq

structure CBResult where
  /-- whether the wrapped function was invoked at all -/
  invoked : Bool
  outcome : CBOutcome
  after : CircuitBreaker
deriving DecidableEq

/-- `CircuitBreaker.call` of `infobridge.py`.  While `'open'`, the call is
rejected (`raise`) unless `time.time() - last_failure_time >
recovery_timeout`, in which case the state becomes `'half_open'` and
`success_count` resets.  On success, only a `'half_open'` breaker updates
counters (`success_count += 1`, closing and resetting `failure_count`
once `success_threshold` is reached); a `'closed'` breaker's
`failure_count` is left untouched.  On failure, `failure_count += 1`,
`last_failure_time` is recorded, and the breaker opens once
`failure_count >= failure_threshold`.  `last_failure_time.getD 0` stands
for the Python attribute, which is always set whenever the open-state
branch reads it. -/
def CircuitBreaker.call (cb : CircuitBreaker) (now : Nat) (ok : Bool) : CBResult :=
  if cb.state = .opened ∧ ¬ cb.recovery_timeout < now - cb.last_failure_time.getD 0 then
    ⟨false, .rejectedOpen, cb⟩
  else
    let cb1 := if cb.state = .opened then
        { cb with state := .halfOpen, success_count := 0 }
      else cb
    if ok then
      if cb1.state = .halfOpen then
        let cb2 := { cb1 with success_count := cb1.success_count + 1 }
        if cb2.success_threshold ≤ cb2.success_count then
          ⟨true, .succeeded, { cb2 with state := .closed, failure_count := 0 }⟩
        else
          ⟨true, .succeeded, cb2⟩
      else
        ⟨true, .succeeded, cb1⟩
    else
      let cb2 := { cb1 with failure_count := cb1.failure_count + 1,
                            last_failure_time := some now }
      if cb2.failure_threshold ≤ cb2.failure_count then
        ⟨true, .raised, { cb2 with state := .opened }⟩
      else
        ⟨true, .raised, cb2⟩

/-- Runs a sequence of calls `(now, ok)` through the breaker. -/
def CircuitBreaker.run (cb : CircuitBreaker) (steps : List (Nat × Bool)) : CircuitBreaker :=
  steps.foldl (fun c s => (c.call s.1 s.2).after) cb

/-- `app101.py`'s `CircuitBreaker`: no half-open state.  When open and the
recovery timeout has elapsed, it re-closes (`is_open = False`,
`failure_count = 0`) and lets the call through; a success resets
`failure_count`, a failure increments it and re-opens only once the
threshold is reached again. -/
structure CircuitBreaker101 where
  failure_threshold : Nat
  recovery_timeout : Nat
  failure_count : Nat
  last_failure_time : Option Nat
  is_open : Bool
deriving DecidableEq

structure CBResult101 where
  invoked : Bool
  outcome : CBOutcome
  after : CircuitBreaker101
deriving DecidableEq

/-- `CircuitBreaker.call` of `app101.py`. -/
def CircuitBreaker101.call (cb : CircuitBreaker101) (now : Nat) (ok : Bool) : CBResult101 :=
  if cb.is_open ∧ ¬ cb.recovery_timeout < now - cb.last_failure_time.getD 0 then
    ⟨false, .rejectedOpen, cb⟩
  else
    let cb1 := if cb.is_open then { cb with is_open := false, failure_count := 0 } else cb
    if ok then
      ⟨true, .succeeded, { cb1 with failure_count := 0 }⟩
    else
      let cb2 := { cb1 with failure_count := cb1.failure_count + 1,
                            last_failure_time := some now }
      if cb2.failure_threshold ≤ cb2.failure_count then
        ⟨true, .raised, { cb2 with is_open := true }⟩
      else
        ⟨true, .raised, cb2⟩

/-- Modelled from the spec words for C4: the number of *consecutive*
failures at the end of a sequence of call results (`true` = success),
with a success resetting the count. -/
def specConsecutiveFailures (results : List Bool) : Nat :=
  results.foldl (fun acc ok => if ok then 0 else acc + 1) 0

/-- Invariant of the `infobridge.py` breaker: whenever the state is not
`closed`, the cumulative failure count has already reached the threshold
(the count is not reset when entering `half_open`). -/
def CBInv (cb : CircuitBreaker) : Prop :=
  cb.state ≠ .closed → cb.failure_threshold ≤ cb.failure_count

theorem CircuitBreaker.call_inv (cb : CircuitBreaker) (now : Nat) (ok : Bool)
    (h : CBInv cb) : CBInv ((cb.call now ok).after) := by
  rcases cb with ⟨ft, rt, st, fc, sc, lft, state⟩
  rcases state <;> rcases ok <;>
    simp only [CircuitBreaker.call, CBInv] at h ⊢ <;>
    split_ifs <;> simp_all <;> omega

theorem CircuitBreaker.run_inv (cb : CircuitBreaker) (steps : List (Nat × Bool))
    (h : CBInv cb) : CBInv (cb.run steps) := by
  induction steps generalizing cb with
  | nil => exact h
  | cons s rest ih => exact ih _ (cb.call_inv s.1 s.2 h)

theorem CircuitBreaker.call_threshold (cb : CircuitBreaker) (now : Nat) (ok : Bool) :
    ((cb.call now ok).after).failure_threshold = cb.failure_threshold := by
  rcases cb with ⟨ft, rt, st, fc, sc, lft, state⟩
  rcases state <;> rcases ok <;> simp [CircuitBreaker.call] <;>
    split_ifs <;> rfl

theorem CircuitBreaker.run_threshold (cb : CircuitBreaker) (steps : List (Nat × Bool)) :
    (cb.run steps).failure_threshold = cb.failure_threshold := by
  induction steps generalizing cb with
  | nil => rfl
  | cons s rest ih =>
    have h : cb.run (s :: rest) = ((cb.call s.1 s.2).after).run rest := rfl
    rw [h, ih, CircuitBreaker.call_threshold]

/-- **C4** (counterexample).  The claim says the breaker opens exactly upon
reaching `failure_threshold` *consecutive* failures, a success while
closed resetting the count.  With `failure_threshold = 2`, the call
sequence failure, success, failure never reaches 2 consecutive failures
(the spec-side counter ends at 1), yet `infobridge.py`'s breaker is open
afterwards, because a success while closed does not reset
`failure_count`. -/
theorem circuit_breaker_consecutive_counterexample :
    ((CircuitBreaker.init 2 60 2).run [(0, false), (1, true), (2, false)]).state
        = CBState.opened ∧
    specConsecutiveFailures [false, true, false] = 1 ∧ (1 : Nat) < 2 := by
  decide

/-- **C4** (amended).  Transition behaviour of the breakers as implemented:
`infobridge.py`'s breaker opens upon the `failure_threshold`-th
*cumulative* failure since it last closed-with-reset — a success while
closed leaves `failure_count` untouched (a); while open it fails fast
with no invocation until `recovery_timeout` has elapsed since the last
failure (d), then admits a trial call in the half-open state (e);
`success_threshold` consecutive half-open successes close it and reset
the count (f, g), and a single half-open failure reopens it (h, justified
by the reachability invariant (i)).  `app101.py`'s breaker has no
half-open state at all: once the timeout elapses it re-closes and resets
its count before invoking, so a single post-recovery failure reopens it
only if the threshold is 1 (j). -/
theorem circuit_breaker_transitions (cb : CircuitBreaker) (now : Nat) :
    (cb.state = .closed →
      (cb.call now true).invoked = true ∧
      (cb.call now true).after.state = .closed ∧
      (cb.call now true).after.failure_count = cb.failure_count) ∧
    (cb.state = .closed → cb.failure_count + 1 < cb.failure_threshold →
      (cb.call now false).after.state = .closed ∧
      (cb.call now false).after.failure_count = cb.failure_count + 1) ∧
    (cb.state = .closed → cb.failure_threshold ≤ cb.failure_count + 1 →
      (cb.call now false).after.state = .opened ∧
      (cb.call now false).after.last_failure_time = some now) ∧
    (∀ ok, cb.state = .opened →
      ¬ cb.recovery_timeout < now - cb.last_failure_time.getD 0 →
      (cb.call now ok).invoked = false ∧
      (cb.call now ok).outcome = .rejectedOpen ∧
      (cb.call now ok).after = cb) ∧
    (∀ ok, cb.state = .opened →
      cb.recovery_timeout < now - cb.last_failure_time.getD 0 →
      (cb.call now ok).invoked = true ∧
      (ok = true → 1 < cb.success_threshold →
        (cb.call now ok).after.state = .halfOpen) ∧
      (ok = true → cb.success_threshold ≤ 1 →
        (cb.call now ok).after.state = .closed ∧
        (cb.call now ok).after.failure_count = 0) ∧
      (ok = false → cb.failure_threshold ≤ cb.failure_count + 1 →
        (cb.call now ok).after.state = .opened)) ∧
    (cb.state = .halfOpen → cb.success_threshold ≤ cb.success_count + 1 →
      (cb.call now true).after.state = .closed ∧
      (cb.call now true).after.failure_count = 0) ∧
    (cb.state = .halfOpen → cb.success_count + 1 < cb.success_threshold →
      (cb.call now true).after.state = .halfOpen) ∧
    (cb.state = .halfOpen → cb.failure_threshold ≤ cb.failure_count + 1 →
      (cb.call now false).after.state = .opened) ∧
    (∀ ft rt st (steps : List (Nat × Bool)),
      ((CircuitBreaker.init ft rt st).run steps).state ≠ .closed →
      ft ≤ ((CircuitBreaker.init ft rt st).run steps).failure_count) ∧
    (∀ (cbA : CircuitBreaker101) ok, cbA.is_open = true →
      cbA.recovery_timeout < now - cbA.last_failure_time.getD 0 →
      (cbA.call now ok).invoked = true ∧
      (ok = true → (cbA.call now ok).after.is_open = false ∧
        (cbA.call now ok).after.failure_count = 0) ∧
      (ok = false → (cbA.call now ok).after.failure_count = 1 ∧
        (cbA.call now ok).after.is_open = decide (cbA.failure_threshold ≤ 1))) := by
  refine ⟨?_, ?_, ?_, ?_, ?_, ?_, ?_, ?_, ?_, ?_⟩
  · intro h
    simp [CircuitBreaker.call, h]
  · intro h1 h2
    simp [CircuitBreaker.call, h1] <;> split_ifs <;>
      first
      | (simp_all <;> omega)
      | simp_all
      | omega
  · intro h1 h2
    simp [CircuitBreaker.call, h1] <;> split_ifs <;>
      first
      | (simp_all <;> omega)
      | simp_all
      | omega
  · intro ok h1 h2
    simp [CircuitBreaker.call, h1, h2]
  · intro ok h1 h2
    rcases ok <;> simp [CircuitBreaker.call, h1, h2] <;> split_ifs <;>
      first
      | (simp_all <;> omega)
      | simp_all
      | omega
  · intro h1 h2
    simp [CircuitBreaker.call, h1] <;> split_ifs <;>
      first
      | (simp_all <;> omega)
      | simp_all
      | omega
  · intro h1 h2
    simp [CircuitBreaker.call, h1] <;> split_ifs <;>
      first
      | (simp_all <;> omega)
      | simp_all
      | omega
  · intro h1 h2
    simp [CircuitBreaker.call, h1] <;> split_ifs <;>
      first
      | (simp_all <;> omega)
      | simp_all
      | omega
  · intro ft rt st steps hne
    have h := CircuitBreaker.run_inv (.init ft rt st) steps
      (fun hc => absurd rfl hc) hne
    rwa [CircuitBreaker.run_threshold] at h
  · intro cbA ok h1 h2
    rcases ok <;> simp [CircuitBreaker101.call, h1, h2] <;> split_ifs <;>
      first
      | (simp_all <;> omega)
      | simp_all
      | omega

/-- Witness for **C4** (amended): conjunct (b) applied to a fresh breaker
with threshold 2 — one failure leaves it closed with count 1. -/
theorem circuit_breaker_transitions_witness :
    ((CircuitBreaker.init 2 60 2).call 0 false).after.state = CBState.closed ∧
    ((CircuitBreaker.init 2 60 2).call 0 false).after.failure_count = 1 :=
  (circuit_breaker_transitions (CircuitBreaker.init 2 60 2) 0).2.1 rfl (by decide)

/-! ## Calendar availability and appointment creation

`CalEvent` models one event returned by the Google Calendar `events().list`
query: its id, whether it carries `start.dateTime`/`end.dateTime` fields
(all-day events do not and are skipped by `app101.py`'s conflict loop),
and its start/end instants in minutes.  The authoritative calendar is a
list of events; the `events().list(timeMin, timeMax)` call is modelled as
filtering the calendar to the events that overlap the query window
(`timeMin` is an exclusive lower bound on the event end, `timeMax` an
exclusive upper bound on the event start).  A backend that can fail
(network/auth) is an `Except Unit (List CalEvent)`. -/

structure CalEvent where
  id : String
  has_datetime : Bool
  startMin : Int
  endMin : Int
deriving DecidableEq

/-- `APPOINTMENT_DURATION` default (minutes), `app101.py`. -/
def appointment_duration : Int := 60

/-- `buffer_minutes = 15` in `app101.py`'s `check_availability`. -/
def buffer_minutes : Int := 15

/-- The symmetric 4-way interval test of `app101.py` lines 488-493, for a
requested interval `[aS, aE)` against an event `[eS, eE)`:
new-start-inside-existing, new-end-inside-existing,
new-fully-containing-existing, existing-fully-containing-new. -/
def overlaps4 (aS aE eS eE : Int) : Bool :=
  (decide (eS ≤ aS) && decide (aS < eE)) ||
  (decide (eS < aE) && decide (aE ≤ eE)) ||
  (decide (aS ≤ eS) && decide (eE ≤ aE)) ||
  (decide (eS ≤ aS) && decide (aE ≤ eE))

/-- Membership in the fetched window: `events().list` is queried with
`timeMin = aS - buffer` and `timeMax = aE + buffer`. -/
def inQueryWindow (aS aE : Int) (e : CalEvent) : Bool :=
  decide (aS - buffer_minutes < e.endMin) && decide (e.startMin < aE + buffer_minutes)

/-- The per-event conflict test of `app101.py`'s loop: skip the excluded
event id, skip events without dateTime fields, then apply the 4-way
test.  Note the compared intervals are NOT expanded by the buffer. -/
def conflictsWith (aS aE : Int) (exclude : Option String) (e : CalEvent) : Bool :=
  (match exclude with
   | some ex => e.id != ex
   | none => true) &&
  e.has_datetime && overlaps4 aS aE e.startMin e.endMin

/-- The conflict description strings produced by `app101.py`'s
`check_availability`: a genuine conflict yields
`"already booked from X to Y"`, a backend exception yields
`"unable to verify availability due to system error"`. -/
inductive ConflictDetail
  | alreadyBookedFrom (startMin endMin : Int)
  | systemError
deriving DecidableEq

/-- The body of `app101.py`'s `check_availability` (lines 437-505) on a
successfully fetched event list: find the first fetched, non-excluded
event with dateTime fields that passes the 4-way test. -/
def check_availability_core (events : List CalEvent) (aS : Int)
    (exclude : Option String) : Bool × Option ConflictDetail :=
  let aE := aS + appointment_duration
  match (events.filter (inQueryWindow aS aE)).find? (conflictsWith aS aE exclude) with
  | some e => (false, some (.alreadyBookedFrom e.startMin e.endMin))
  | none => (true, none)

/-- `app101.py`'s `check_availability`: no calendar service configured
means `(True, None)`; any exception (here: the backend erroring) is
caught and reported as `(False, "unable to verify availability due to
system error")` — the function fails closed.  `app101.py` has no
availability cache at all. -/
def check_availability (svc : Bool) (backend : Except Unit (List CalEvent))
    (aS : Int) (exclude : Option String) : Bool × Option ConflictDetail :=
  if svc = false then (true, none)
  else
    match backend with
    | .error _ => (false, some .systemError)
    | .ok events => check_availability_core events aS exclude

/-- Lock-aware execution of `app101.py`'s `check_availability`.
`lockHeld` says whether the calling thread already holds the calendar
manager's `self._lock` (a non-reentrant `threading.Lock`).  The body runs
inside `with self._lock`, so if the thread already holds the lock the
acquire blocks forever; `none` models that the call never returns. -/
def check_availability_exec (lockHeld : Bool) (svc : Bool)
    (backend : Except Unit (List CalEvent)) (aS : Int) (exclude : Option String) :
    Option (Bool × Option ConflictDetail) :=
  if svc = false then some (true, none)
  else if lockHeld then none
  else some (check_availability svc backend aS exclude)

/-- The error channel of `app101.py`'s `create_appointment`:
`"Calendar service not available"`, the conflict message
`"Cannot book ... - slot is {details}"`, or the exception message
`"Failed to create calendar event: ..."` from the insert call. -/
inductive CreateError
  | serviceUnavailable
  | slotConflict (d : ConflictDetail)
  | insertFailed
deriving DecidableEq

/-- Lock-aware execution of `app101.py`'s `create_appointment` (lines
549-597).  The body acquires `self._lock` and, still holding it, calls
`self.check_availability`, which tries to acquire the same non-reentrant
lock; `none` models the resulting permanent block.  The result on a
completed call would be the `(success, event_id, error)` triple together
with the updated calendar. -/
def create_appointment_exec (lockHeld : Bool) (svc : Bool)
    (backend : Except Unit (List CalEvent)) (insertOk : Bool) (cal : List CalEvent)
    (aS : Int) (newId : String) :
    Option ((Bool × Option String × Option CreateError) × List CalEvent) :=
  if svc = false then some ((false, none, some .serviceUnavailable), cal)
  else if lockHeld then none
  else
    match check_availability_exec true svc backend aS none with
    | none => none
    | some (isAvailable, details) =>
      if isAvailable = false then
        some ((false, none, some (.slotConflict (details.getD .systemError))), cal)
      else if insertOk = false then
        some ((false, none, some .insertFailed), cal)
      else
        some ((true, some newId, none),
          cal ++ [⟨newId, true, aS, aS + appointment_duration⟩])

/-- The sequential data flow of `app101.py`'s `create_appointment` body,
with the lock semantics abstracted away (see `create_appointment_exec`
for the faithful lock behaviour): re-check availability, refuse with
`"Cannot book ..."` if the slot is taken, otherwise insert the event.
The post-insert verification re-check only prints a warning and does not
affect the result, so it is omitted. -/
def create_appointment_logic (svc : Bool) (backend : Except Unit (List CalEvent))
    (insertOk : Bool) (cal : List CalEvent) (aS : Int) (newId : String) :
    (Bool × Option String × Option CreateError) × List CalEvent :=
  if svc = false then ((false, none, some .serviceUnavailable), cal)
  else
    let chk := check_availability svc backend aS none
    if chk.1 = false then
      ((false, none, some (.slotConflict (chk.2.getD .systemError))), cal)
    else if insertOk = false then
      ((false, none, some .insertFailed), cal)
    else
      ((true, some newId, none), cal ++ [⟨newId, true, aS, aS + appointment_duration⟩])

/-- `infobridge.py`'s `_check_availability_internal` (lines 908-958): no
service means available; query window is the one-hour block starting at
the appointment; the result is `len(events) == 0`; any exception returns
`True` — it fails open. -/
def ib_check_availability_internal (svc : Bool)
    (backend : Except Unit (List CalEvent)) (aS : Int) : Bool :=
  if svc = false then true
  else
    match backend with
    | .error _ => true
    | .ok events =>
      (events.filter (fun e =>
        decide (aS < e.endMin) && decide (e.startMin < aS + 60))).isEmpty

/-- An `availability_cache` entry of `infobridge.py`: `available` plus the
`time.time()` timestamp at which it was observed. -/
structure CacheEntry where
  available : Bool
  timestamp : Nat
deriving DecidableEq

/-- `cache_ttl = 300` seconds in `infobridge.py`. -/
def cache_ttl : Nat := 300

/-- `infobridge.py`'s `check_availability`: consult the cache first and
trust any entry younger than the TTL, otherwise fall back to the
internal check. -/
def ib_check_availability (cache : Option CacheEntry) (now : Nat)
    (internal : Bool) : Bool :=
  match cache with
  | some c => if now - c.timestamp < cache_ttl then c.available else internal
  | none => internal

/-- `infobridge.py`'s `create_appointment` (lines 960-1020): if a service
is configured it builds the event and inserts it directly — there is no
availability check, no lock, and no cache consultation on this path;
any exception yields `None`.  Returns the event id and the updated
calendar. -/
def ib_create_appointment (svc : Bool) (insertOk : Bool) (cal : List CalEvent)
    (aS : Int) (newId : String) : Option String × List CalEvent :=
  if svc = false then (none, cal)
  else if insertOk = false then (none, cal)
  else (some newId, cal ++ [⟨newId, true, aS, aS + 60⟩])

/-- Modelled from the spec words for C5: expand both the requested slot and
each existing (non-excluded) event by the buffer on each side, then apply
the symmetric 4-way interval test. -/
def spec_buffered_conflict (events : List CalEvent) (aS : Int)
    (exclude : Option String) : Bool :=
  events.any (fun e =>
    (match exclude with
     | some ex => e.id != ex
     | none => true) &&
    overlaps4 (aS - buffer_minutes) (aS + appointment_duration + buffer_minutes)
      (e.startMin - buffer_minutes) (e.endMin + buffer_minutes))

/-- **C5** (counterexample).  An event running from 70 to 100 minutes after
a 2:00 PM (840) request ends: the buffered expansions (claim) overlap —
the gap of 10 minutes is smaller than the two 15-minute buffers — so the
claim reports a conflict, but the code compares the *unexpanded*
intervals and reports the slot available (the buffer only widens the
`events().list` query window). -/
theorem availability_buffer_counterexample :
    check_availability_core [⟨"e1", true, 910, 940⟩] 840 none = (true, none) ∧
    spec_buffered_conflict [⟨"e1", true, 910, 940⟩] 840 none = true := by
  decide

/-- Any event passing the unexpanded 4-way test lies inside the buffered
query window, provided its interval is proper. -/
theorem conflict_in_window (aS : Int) (exclude : Option String) (e : CalEvent)
    (hp : e.startMin < e.endMin)
    (hc : conflictsWith aS (aS + appointment_duration) exclude e = true) :
    inQueryWindow aS (aS + appointment_duration) e = true := by
  unfold conflictsWith overlaps4 at hc
  unfold inQueryWindow
  simp only [Bool.and_eq_true, Bool.or_eq_true, decide_eq_true_eq,
    appointment_duration, buffer_minutes, or_assoc] at hc ⊢
  obtain ⟨-, hov⟩ := hc
  rcases hov with h | h | h | h <;> omega

/-- **C5** (amended).  `check_availability` reports a conflict iff some
existing, non-excluded event with dateTime fields overlaps the
*unexpanded* requested interval `[start, start + duration)` under the
symmetric 4-way test; the 15-minute buffer expands only the window of
events fetched for comparison, not the compared intervals (events are
assumed to have proper, nonempty intervals). -/
theorem availability_check_overlap (events : List CalEvent) (aS : Int)
    (exclude : Option String) (hproper : ∀ e ∈ events, e.startMin < e.endMin) :
    (check_availability_core events aS exclude).1 = false ↔
      ∃ e ∈ events, conflictsWith aS (aS + appointment_duration) exclude e = true := by
  unfold check_availability_core
  rcases hfind : (events.filter
      (inQueryWindow aS (aS + appointment_duration))).find?
      (conflictsWith aS (aS + appointment_duration) exclude) with _ | e
  · simp only [hfind]
    constructor
    · intro h
      simp at h
    · rintro ⟨e, he, hc⟩
      have hw := conflict_in_window aS exclude e (hproper e he) hc
      have hnone := List.find?_eq_none.mp hfind e (List.mem_filter.mpr ⟨he, hw⟩)
      exact absurd hc hnone
  · simp only [hfind]
    constructor
    · intro _
      have hmem := List.mem_of_find?_eq_some hfind
      have hc := List.find?_some hfind
      exact ⟨e, (List.mem_filter.mp hmem).1, hc⟩
    · intro _
      trivial

/-- Witness for **C5** (amended): a booked 2:00-3:00 PM event makes the
2:00 PM check report a conflict. -/
theorem availability_check_overlap_witness :
    (check_availability_core [⟨"b", true, 840, 900⟩] 840 none).1 = false ↔
      ∃ e ∈ [(⟨"b", true, 840, 900⟩ : CalEvent)],
        conflictsWith 840 (840 + appointment_duration) none e = true :=
  availability_check_overlap [⟨"b", true, 840, 900⟩] 840 none (by decide)

/-- **C6** (counterexample).  When the calendar backend errors,
`app101.py`'s `check_availability` returns
`(False, "unable to verify availability due to system error")` — it
reports the slot *unavailable*, contradicting the claim that every
erroring check fails open. -/
theorem fail_open_counterexample :
    check_availability true (.error ()) 840 none
      = (false, some .systemError) := by
  decide

/-- **C6** (amended).  The two variants disagree on the policy:
`infobridge.py`'s `_check_availability_internal` fails open (backend
error reports available), while `app101.py`'s `check_availability` fails
closed (backend error reports unavailable with a system-error
description). -/
theorem backend_error_policy (aS : Int) (exclude : Option String) :
    check_availability true (.error ()) aS exclude = (false, some .systemError) ∧
    ib_check_availability_internal true (.error ()) aS = true :=
  ⟨rfl, rfl⟩

/-- **C1** (counterexample).  With a calendar already holding a
2:00-3:00 PM event, `infobridge.py`'s `create_appointment` inserts a
second event at 2:00 PM and returns its id, even though a fresh
availability check (either variant) reports the slot taken: that
`create()` performs no availability check at all. -/
theorem create_bypasses_check_counterexample :
    ib_create_appointment true true [⟨"busy", true, 840, 900⟩] 840 "new"
      = (some "new", [⟨"busy", true, 840, 900⟩, ⟨"new", true, 840, 900⟩]) ∧
    ib_check_availability_internal true (.ok [⟨"busy", true, 840, 900⟩]) 840 = false ∧
    (check_availability true (.ok [⟨"busy", true, 840, 900⟩]) 840 none).1 = false := by
  decide

/-- **C1** (amended).  `app101.py`'s `create_appointment` body does run the
availability check (which consults no cache — `app101.py` has none)
immediately before inserting, refuses on a reported conflict, and
inserts only when the fresh check reports the slot available; but
`infobridge.py`'s `create_appointment` inserts unconditionally, with no
availability check on the write path. -/
theorem create_recheck_amended (backend : Except Unit (List CalEvent))
    (insertOk : Bool) (cal : List CalEvent) (aS : Int) (newId : String) :
    ((create_appointment_logic true backend insertOk cal aS newId).2 ≠ cal →
      (check_availability true backend aS none).1 = true) ∧
    ((check_availability true backend aS none).1 = false →
      create_appointment_logic true backend insertOk cal aS newId =
        ((false, none, some (.slotConflict
          ((check_availability true backend aS none).2.getD .systemError))), cal)) ∧
    (ib_create_appointment true true cal aS newId =
      (some newId, cal ++ [⟨newId, true, aS, aS + 60⟩])) := by
  refine ⟨?_, ?_, ?_⟩
  · intro hne
    rcases hchk : (check_availability true backend aS none).1 with _ | _
    · exfalso
      apply hne
      simp [create_appointment_logic, hchk]
    · rfl
  · intro hchk
    simp [create_appointment_logic, hchk]
  · simp [ib_create_appointment]

/-- Witness for **C1** (amended): on a calendar with a 2:00-3:00 PM event,
the app101 create body refuses to book 2:00 PM and leaves the calendar
unchanged. -/
theorem create_recheck_amended_witness :
    create_appointment_logic true (.ok [⟨"busy", true, 840, 900⟩]) true
        [⟨"busy", true, 840, 900⟩] 840 "new"
      = ((false, none, some (.slotConflict (.alreadyBookedFrom 840 900))),
         [⟨"busy", true, 840, 900⟩]) := by
  have h := (create_recheck_amended (.ok [⟨"busy", true, 840, 900⟩]) true
    [⟨"busy", true, 840, 900⟩] 840 "new").2.1 (by decide)
  rw [h]
  decide

/-- **C3** (code_bug).  With a calendar service configured,
`create_appointment` acquires the manager's non-reentrant lock and then
calls `check_availability`, whose own `with self._lock` blocks forever:
the call never returns at all (first conjunct), even though the same
check called on its own (lock free) returns normally (second conjunct) —
the block is caused precisely by the re-acquisition. -/
theorem create_appointment_deadlock (backend : Except Unit (List CalEvent))
    (insertOk : Bool) (cal : List CalEvent) (aS : Int) (newId : String)
    (exclude : Option String) :
    create_appointment_exec false true backend insertOk cal aS newId = none ∧
    check_availability_exec false true backend aS exclude
      = some (check_availability true backend aS exclude) := by
  constructor
  · simp [create_appointment_exec, check_availability_exec]
  · simp [check_availability_exec]

/-- Two concurrent `create()` calls for the same slot, modelled through the
calendar mutex: the scheduler picks which caller acquires the mutex
first; the second caller can enter the critical section only if the
first ever releases it.  Each entry in the result is the `(success,
event_id, error)` triple the respective caller receives, `none` meaning
the call never returns. -/
def two_concurrent_creates (firstIsA : Bool) (svc : Bool)
    (backend : Except Unit (List CalEvent)) (insertOkA insertOkB : Bool)
    (cal : List CalEvent) (aS : Int) (idA idB : String) :
    Option (Bool × Option String × Option CreateError) ×
      Option (Bool × Option String × Option CreateError) :=
  if firstIsA then
    match create_appointment_exec false svc backend insertOkA cal aS idA with
    | none => (none, none)
    | some (resA, cal2) =>
      (some resA,
       (create_appointment_exec false svc backend insertOkB cal2 aS idB).map
         (fun r => r.1))
  else
    match create_appointment_exec false svc backend insertOkB cal aS idB with
    | none => (none, none)
    | some (resB, cal2) =>
      ((create_appointment_exec false svc backend insertOkA cal2 aS idA).map
         (fun r => r.1),
       some resB)

/-- **C3** failing-input evaluation reused for **C2** (code_bug): under
every schedule of two concurrent `create()` calls for the same slot,
neither caller ever receives a result — the first caller self-deadlocks
inside the critical section and the second blocks on the mutex — so no
interleaving produces the claimed one-success/one-conflict outcome. -/
theorem concurrent_create_no_winner (firstIsA : Bool)
    (backend : Except Unit (List CalEvent)) (insertOkA insertOkB : Bool)
    (cal : List CalEvent) (aS : Int) (idA idB : String) :
    two_concurrent_creates firstIsA true backend insertOkA insertOkB cal aS idA idB
      = (none, none) := by
  rcases firstIsA <;>
    simp [two_concurrent_creates, create_appointment_exec, check_availability_exec]

/-! ## Alternative slot search

`find_next_available_slots` of `app101.py` (lines 518-547).  The fixed
grid `time_slots` is the list literal from the source.  The availability
of a slot is the first component of `check_availability`, abstracted
here as an oracle `avail : String → Bool` (the claim quantifies over
calendar contents). -/

/-- The fixed bookable grid of `app101.py`'s `find_next_available_slots`. -/
def time_slots : List String :=
  ["8:00 AM", "8:30 AM", "9:00 AM", "9:30 AM", "10:00 AM", "10:30 AM",
   "11:00 AM", "11:30 AM", "12:00 PM", "12:30 PM", "1:00 PM", "1:30 PM",
   "2:00 PM", "2:30 PM", "3:00 PM", "3:30 PM", "4:00 PM", "4:30 PM", "5:00 PM"]

/-- Minutes after midnight of each grid slot (used only to state the
ordering property; slots outside the grid map to 0). -/
def slotMinutes : String → Nat
  | "8:00 AM" => 480 | "8:30 AM" => 510 | "9:00 AM" => 540 | "9:30 AM" => 570
  | "10:00 AM" => 600 | "10:30 AM" => 630 | "11:00 AM" => 660 | "11:30 AM" => 690
  | "12:00 PM" => 720 | "12:30 PM" => 750 | "1:00 PM" => 780 | "1:30 PM" => 810
  | "2:00 PM" => 840 | "2:30 PM" => 870 | "3:00 PM" => 900 | "3:30 PM" => 930
  | "4:00 PM" => 960 | "4:30 PM" => 990 | "5:00 PM" => 1020
  | _ => 0

/-- The reordering pass of `find_next_available_slots`: when the preferred
time is on the grid, walk outward from its index, appending the later
slot then the earlier slot at each distance (`reordered.append(time_slots[idx + i])`
then, for `i > 0` and `idx - i >= 0`, `reordered.append(time_slots[idx - i])`). -/
def reorder_slots (preferred : Option String) : List String :=
  match preferred with
  | none => time_slots
  | some p =>
    if p ∈ time_slots then
      let idx := time_slots.indexOf p
      (List.range time_slots.length).flatMap (fun i =>
        (if idx + i < time_slots.length then [time_slots.getD (idx + i) ""] else []) ++
        (if i ≤ idx ∧ 0 < i then [time_slots.getD (idx - i) ""] else []))
    else time_slots

/-- The collection loop of `find_next_available_slots`: walk the candidate
order, breaking once `count` available slots have been collected. -/
def collect_avail (avail : String → Bool) (count : Nat) :
    List String → List String → List String
  | acc, [] => acc
  | acc, s :: rest =>
    if count ≤ acc.length then acc
    else collect_avail avail count (if avail s then acc ++ [s] else acc) rest

/-- `app101.py`'s `find_next_available_slots`: empty when no calendar
service is configured, otherwise the first `count` available slots in
the reordered candidate sequence. -/
def find_next_available_slots (svc : Bool) (avail : String → Bool)
    (preferred : Option String) (count : Nat) : List String :=
  if svc = false then []
  else collect_avail avail count [] (reorder_slots preferred)

theorem collect_avail_eq (avail : String → Bool) (count : Nat)
    (l : List String) : ∀ acc,
    collect_avail avail count acc l
      = acc ++ (l.filter avail).take (count - acc.length) := by
  induction l with
  | nil => intro acc; simp [collect_avail]
  | cons s rest ih =>
    intro acc
    by_cases h : count ≤ acc.length
    · have h0 : count - acc.length = 0 := by omega
      simp [collect_avail, h, h0]
    · have hlen : count - acc.length = (count - (acc.length + 1)) + 1 := by omega
      rcases ha : avail s with _ | _
      · rw [collect_avail, if_neg h, ha]
        simp only [if_neg Bool.false_ne_true, List.filter_cons, ha]
        exact ih acc
      · rw [collect_avail, if_neg h, ha, if_pos rfl, ih (acc ++ [s])]
        simp [List.filter_cons, ha, hlen, List.take_succ_cons]

/-- **C9** (confirmed).  With a calendar service configured,
`find_next_available_slots(date, "2:00 PM", 3)` returns only available
slots, in strictly non-decreasing absolute minute distance from 2:00 PM
with the later slot preferred at equal distance, and its length is 3
unless fewer slots of the grid are available (the loop stops at 3 or at
grid exhaustion).  Quantified over every availability oracle. -/
theorem find_alternatives_ordering (avail : String → Bool) :
    (∀ s ∈ find_next_available_slots true avail (some "2:00 PM") 3, avail s = true) ∧
    (find_next_available_slots true avail (some "2:00 PM") 3).Pairwise (fun a b =>
      ((slotMinutes a : Int) - 840).natAbs < ((slotMinutes b : Int) - 840).natAbs ∨
      (((slotMinutes a : Int) - 840).natAbs = ((slotMinutes b : Int) - 840).natAbs ∧
        slotMinutes b < slotMinutes a)) ∧
    (find_next_available_slots true avail (some "2:00 PM") 3).length
      = min 3 (time_slots.filter avail).length := by
  have hr : find_next_available_slots true avail (some "2:00 PM") 3
      = ((reorder_slots (some "2:00 PM")).filter avail).take 3 := by
    rw [find_next_available_slots, if_neg (by decide), collect_avail_eq]
    simp
  have hsub : List.Sublist (((reorder_slots (some "2:00 PM")).filter avail).take 3)
      (reorder_slots (some "2:00 PM")) :=
    (List.take_sublist _ _).trans (List.filter_sublist _)
  refine ⟨?_, ?_, ?_⟩
  · intro s hs
    rw [hr] at hs
    exact (List.mem_filter.mp (List.take_subset _ _ hs)).2
  · rw [hr]
    exact List.Pairwise.sublist hsub (by decide)
  · rw [hr, List.length_take]
    have hperm : List.Perm (reorder_slots (some "2:00 PM")) time_slots := by decide
    rw [(hperm.filter avail).length_eq]

/-! ## Call sessions and the incoming-call handler

`CustomerData` models the keys `app101.py`'s code reads and writes in
`session.customer_data`; a missing dictionary key is `none`.
`CallSession` models the dataclass of `app101.py` lines 180-195
(restricted to the fields the claims concern).  The session store
`self.call_sessions` is a map from CallSid to session. -/

structure CustomerData where
  name : Option String
  service : Option String
  date : Option String
  time : Option String
  phone : Option String
  preferred_time : Option String
  unavailable_time : Option String
  conflict_reason : Option String
  alternative_times : Option (List String)
  from_number : Option String
deriving DecidableEq

def CustomerData.empty : CustomerData :=
  ⟨none, none, none, none, none, none, none, none, none, none⟩

structure CallSession where
  call_sid : String
  state : String
  customer_data : CustomerData
  attempts : Nat
  conversation_history : List (String × String)
deriving DecidableEq

/-- The session built by `handle_incoming_call`: a fresh `CallSession`
in state `"greeting"` whose only datum is the caller id. -/
def freshSession (call_sid from_number : String) : CallSession :=
  { call_sid := call_sid, state := "greeting",
    customer_data := { CustomerData.empty with from_number := some from_number },
    attempts := 0, conversation_history := [] }

/-- `app101.py`'s `handle_incoming_call` (lines 1271-1307): under the
session lock it builds a brand-new `CallSession` and assigns
`self.call_sessions[call_sid] = session` unconditionally, whether or not
a session with that CallSid already exists. -/
def handle_incoming_call_store (store : String → Option CallSession)
    (call_sid from_number : String) : String → Option CallSession :=
  fun k => if k = call_sid then some (freshSession call_sid from_number) else store k

/-- A live mid-call session with collected fields, used as the
counterexample state for C8. -/
def richSession : CallSession :=
  { call_sid := "CA1", state := "confirming",
    customer_data := { CustomerData.empty with
      name := some "Jane", service := some "Cleaning",
      date := some "Friday, June 6", time := some "10:00 AM",
      from_number := some "+15550001111" },
    attempts := 2, conversation_history := [("user", "hi")] }

/-- **C8** (counterexample).  A repeated `call started` webhook for the
live CallSid `"CA1"` does not leave the stored session unchanged: the
handler silently replaces it with a fresh greeting-state session, losing
the collected name (and every other field). -/
theorem repeated_call_started_counterexample :
    (handle_incoming_call_store (fun k => if k = "CA1" then some richSession else none)
        "CA1" "+15550001111") "CA1" ≠ some richSession ∧
    ((handle_incoming_call_store (fun k => if k = "CA1" then some richSession else none)
        "CA1" "+15550001111") "CA1").map (fun s => s.customer_data.name)
      = some none := by
  decide

/-- **C8** (amended).  Processing a repeated `call started` event for an
id already present does not fail and does not preserve the session: the
handler stores a brand-new greeting-state session under that id
(discarding all in-progress state), leaving every other id untouched. -/
theorem repeated_call_started_overwrites (store : String → Option CallSession)
    (call_sid from_number : String) :
    (handle_incoming_call_store store call_sid from_number) call_sid
      = some (freshSession call_sid from_number) ∧
    (∀ k, k ≠ call_sid →
      (handle_incoming_call_store store call_sid from_number) k = store k) := by
  constructor
  · simp [handle_incoming_call_store]
  · intro k hk
    simp [handle_incoming_call_store, hk]

/-- Witness for **C8** (amended): other ids are untouched. -/
theorem repeated_call_started_overwrites_witness :
    (handle_incoming_call_store (fun _ => none) "CA1" "+15550001111") "CA2" = none :=
  (repeated_call_started_overwrites (fun _ => none) "CA1" "+15550001111").2 "CA2"
    (by decide)

/-! ## Booking-info extraction

`extract_booking_info` of `app101.py` (lines 1550-1627) and of
`infobridge.py` (lines 2931-2986).  The individual pattern matchers
(regexes, keyword sets, relative-date resolution, the AI-assisted time
parser) are deterministic functions of the utterance; they are supplied
as oracle functions in `Extractors` so the theorems quantify over all of
them, while the mutation/guard structure — what the claims are about —
is transcribed from the source. -/

structure Extractors where
  /-- the five explicit self-identification regexes, with `.title()` -/
  namePattern : String → Option String
  /-- the filler-word-stripping fallback accepting 1-3 word-like tokens -/
  nameFallback : String → Option String
  /-- first configured service whose keywords match -/
  serviceMatch : String → Option String
  /-- `extract_date` -/
  extractDate : String → Option String
  /-- `extract_time` (regex patterns, AI fallback, part-of-day words) -/
  extractTime : String → Option String
  /-- the digit-grouped phone regex -/
  phonePattern : String → Option String
  /-- `"9:00" in text.lower()` -/
  contains900 : String → Bool
  /-- `self.calendar_manager` is configured -/
  hasCalendar : Bool
  /-- `calendar_manager.check_availability(date, time)` -/
  checkAvail : String → String → Bool × Option String
  /-- `calendar_manager.find_next_available_slots(date, time, 3)` -/
  findSlots : String → String → List String

/-- `_check_and_set_time` of `app101.py` (lines 1629-1653): requires a
date; with a calendar, sets `time` only if the slot checks out,
otherwise records `unavailable_time`, `conflict_reason` and
`alternative_times`; without a calendar, sets `time` unconditionally. -/
def check_and_set_time (E : Extractors) (cd : CustomerData) (t : String) :
    CustomerData × Bool :=
  match cd.date with
  | none => (cd, false)
  | some d =>
    if E.hasCalendar then
      match E.checkAvail d t with
      | (true, _) => ({ cd with time := some t }, true)
      | (false, details) =>
        ({ cd with unavailable_time := some t, conflict_reason := details,
                   alternative_times := some (E.findSlots d t) }, false)
    else ({ cd with time := some t }, true)

/-- First part of the name block: the explicit regex patterns. -/
def namePatternStep (E : Extractors) (cd : CustomerData) (text : String) :
    CustomerData :=
  match E.namePattern text with
  | some n => { cd with name := some n }
  | none => cd

/-- The nested time block inside the name block: when no time is set but
a date is, try `extract_time`, falling back to `"9:00 AM"` when the
text contains `"9:00"`, and hand the result to `_check_and_set_time`. -/
def nameNestedTimeStep (E : Extractors) (cd : CustomerData) (text : String) :
    CustomerData :=
  if cd.time.isNone && cd.date.isSome then
    match (match E.extractTime text with
           | some t => some t
           | none => if E.contains900 text then some "9:00 AM" else none) with
    | some t => (check_and_set_time E cd t).1
    | none => cd
  else cd

/-- The gathering-name fallback at the end of the name block. -/
def nameFallbackStep (E : Extractors) (state : String) (cd : CustomerData)
    (text : String) : CustomerData :=
  if cd.name.isNone && state == "gathering_name" then
    match E.nameFallback text with
    | some n => { cd with name := some n }
    | none => cd
  else cd

/-- The name block of `extract_booking_info` (`if not
customer_data.get('name'):`): the regex patterns, then the nested time
block — which falls back to `"9:00 AM"` when `extract_time` fails but
the text contains `"9:00"` — then the gathering-name fallback. -/
def nameSection (E : Extractors) (state : String) (cd : CustomerData)
    (text : String) : CustomerData :=
  if cd.name.isSome then cd
  else
    nameFallbackStep E state
      (nameNestedTimeStep E (namePatternStep E cd text) text) text

/-- The service block: first matching service, only if unset. -/
def serviceSection (E : Extractors) (cd : CustomerData) (text : String) :
    CustomerData :=
  if cd.service.isSome then cd
  else
    match E.serviceMatch text with
    | some s => { cd with service := some s }
    | none => cd

/-- The date block: extract a date if unset; on success, if a
`preferred_time` was stashed, immediately try `_check_and_set_time`
with it. -/
def dateSection (E : Extractors) (cd : CustomerData) (text : String) :
    CustomerData :=
  if cd.date.isSome then cd
  else
    match E.extractDate text with
    | some d =>
      let cd1 := { cd with date := some d }
      match cd1.preferred_time with
      | some pt => (check_and_set_time E cd1 pt).1
      | none => cd1
    | none => cd

/-- The time block (`if not time and date: ... elif not time and not
date: ...`): with a date, try to book the extracted time; without one,
stash it as `preferred_time`. -/
def timeSection (E : Extractors) (cd : CustomerData) (text : String) :
    CustomerData :=
  if cd.time.isNone && cd.date.isSome then
    match E.extractTime text with
    | some t => (check_and_set_time E cd t).1
    | none => cd
  else if cd.time.isNone && cd.date.isNone then
    match E.extractTime text with
    | some t => { cd with preferred_time := some t }
    | none => cd
  else cd

/-- The phone block: regex match if unset, else fall back to the
caller-id number. -/
def phoneSection (E : Extractors) (cd : CustomerData) (text : String) :
    CustomerData :=
  if cd.phone.isSome then cd
  else
    match E.phonePattern text with
    | some p => { cd with phone := some p }
    | none =>
      match cd.from_number with
      | some f => { cd with phone := some f }
      | none => cd

/-- `app101.py`'s `extract_booking_info`: the five blocks in source
order. -/
def extract_booking_info (E : Extractors) (state : String) (cd : CustomerData)
    (text : String) : CustomerData :=
  phoneSection E
    (timeSection E
      (dateSection E
        (serviceSection E (nameSection E state cd text) text) text) text) text

/-- The `session.customer_data` keys used by `infobridge.py`'s extractor. -/
structure CustomerDataIB where
  name : Option String
  service : Option String
  date : Option String
  time : Option String
  phone : Option String
deriving DecidableEq

structure ExtractorsIB where
  namePattern : String → Option String
  serviceMatch : String → Option String
  extractDate : String → Option String
  extractTime : String → Option String
  phonePattern : String → Option String
  available_times : List String
  nearestAvail : String → Option String

/-- The guarded name block of `infobridge.py`'s extractor. -/
def ibNameStep (E : ExtractorsIB) (cd : CustomerDataIB) (text : String) :
    CustomerDataIB :=
  if cd.name.isSome then cd
  else
    match E.namePattern text with
    | some n => { cd with name := some n }
    | none => cd

/-- The guarded service block of `infobridge.py`'s extractor. -/
def ibServiceStep (E : ExtractorsIB) (cd : CustomerDataIB) (text : String) :
    CustomerDataIB :=
  if cd.service.isSome then cd
  else
    match E.serviceMatch text with
    | some s => { cd with service := some s }
    | none => cd

/-- The guarded date block of `infobridge.py`'s extractor. -/
def ibDateStep (E : ExtractorsIB) (cd : CustomerDataIB) (text : String) :
    CustomerDataIB :=
  if cd.date.isSome then cd
  else
    match E.extractDate text with
    | some d => { cd with date := some d }
    | none => cd

/-- The guarded time block of `infobridge.py`'s extractor: a parsed time
is accepted if it is on the grid, otherwise snapped to the nearest
available grid slot. -/
def ibTimeStep (E : ExtractorsIB) (cd : CustomerDataIB) (text : String) :
    CustomerDataIB :=
  if cd.time.isSome then cd
  else
    match E.extractTime text with
    | some t =>
      if t ∈ E.available_times then { cd with time := some t }
      else
        match E.nearestAvail t with
        | some n => { cd with time := some n }
        | none => cd
    | none => cd

/-- The UNguarded phone block at the end of `infobridge.py`'s extractor:
any phone number in the utterance overwrites `customer_data['phone']`. -/
def ibPhoneStep (E : ExtractorsIB) (cd : CustomerDataIB) (text : String) :
    CustomerDataIB :=
  match E.phonePattern text with
  | some p => { cd with phone := some p }
  | none => cd

/-- `infobridge.py`'s `extract_booking_info` (lines 2931-2986): name,
service, date and time are guarded by their own unset checks, but the
final phone assignment is not. -/
def ib_extract_booking_info (E : ExtractorsIB) (cd : CustomerDataIB)
    (text : String) : CustomerDataIB :=
  ibPhoneStep E
    (ibTimeStep E
      (ibDateStep E (ibServiceStep E (ibNameStep E cd text) text) text) text) text

theorem check_and_set_time_name (E : Extractors) (cd : CustomerData) (t : String) :
    (check_and_set_time E cd t).1.name = cd.name := by
  unfold check_and_set_time
  rcases hd : cd.date with _ | d
  · simp
  · rcases hca : E.checkAvail d t with ⟨b, det⟩
    rcases b <;> split_ifs <;> simp [hca]

theorem check_and_set_time_service (E : Extractors) (cd : CustomerData) (t : String) :
    (check_and_set_time E cd t).1.service = cd.service := by
  unfold check_and_set_time
  rcases hd : cd.date with _ | d
  · simp
  · rcases hca : E.checkAvail d t with ⟨b, det⟩
    rcases b <;> split_ifs <;> simp [hca]

theorem check_and_set_time_date (E : Extractors) (cd : CustomerData) (t : String) :
    (check_and_set_time E cd t).1.date = cd.date := by
  unfold check_and_set_time
  rcases hd : cd.date with _ | d
  · simp [hd]
  · rcases hca : E.checkAvail d t with ⟨b, det⟩
    rcases b <;> split_ifs <;> simp [hca, hd]

theorem check_and_set_time_phone (E : Extractors) (cd : CustomerData) (t : String) :
    (check_and_set_time E cd t).1.phone = cd.phone := by
  unfold check_and_set_time
  rcases hd : cd.date with _ | d
  · simp
  · rcases hca : E.checkAvail d t with ⟨b, det⟩
    rcases b <;> split_ifs <;> simp [hca]

theorem nameSection_some (E : Extractors) (state : String) (cd : CustomerData)
    (text : String) (h : cd.name.isSome) : nameSection E state cd text = cd := by
  unfold nameSection
  rw [if_pos h]

theorem namePatternStep_pres (E : Extractors) (cd : CustomerData) (text : String) :
    (namePatternStep E cd text).service = cd.service ∧
    (namePatternStep E cd text).date = cd.date ∧
    (namePatternStep E cd text).time = cd.time ∧
    (namePatternStep E cd text).phone = cd.phone := by
  unfold namePatternStep
  rcases E.namePattern text with _ | n <;> simp

theorem nameNestedTimeStep_pres (E : Extractors) (cd : CustomerData) (text : String) :
    (nameNestedTimeStep E cd text).name = cd.name ∧
    (nameNestedTimeStep E cd text).service = cd.service ∧
    (nameNestedTimeStep E cd text).date = cd.date ∧
    (nameNestedTimeStep E cd text).phone = cd.phone := by
  rcases cd with ⟨n, sv, dt, tm, ph, pt, ut, cr, al, fn⟩
  unfold nameNestedTimeStep check_and_set_time
  repeat' split
  all_goals simp_all

theorem nameNestedTimeStep_time_some (E : Extractors) (cd : CustomerData)
    (text : String) (h : cd.time.isSome) :
    nameNestedTimeStep E cd text = cd := by
  unfold nameNestedTimeStep
  rw [if_neg]
  simp only [Bool.and_eq_true, Option.isNone_iff_eq_none]
  intro hcontra
  rw [hcontra.1] at h
  exact absurd h (by simp)

theorem nameNestedTimeStep_date_none (E : Extractors) (cd : CustomerData)
    (text : String) (h : cd.date = none) :
    nameNestedTimeStep E cd text = cd := by
  unfold nameNestedTimeStep
  rw [if_neg]
  simp [h]

theorem nameFallbackStep_pres (E : Extractors) (state : String) (cd : CustomerData)
    (text : String) :
    (nameFallbackStep E state cd text).service = cd.service ∧
    (nameFallbackStep E state cd text).date = cd.date ∧
    (nameFallbackStep E state cd text).time = cd.time ∧
    (nameFallbackStep E state cd text).phone = cd.phone := by
  unfold nameFallbackStep
  split_ifs <;> rcases E.nameFallback text with _ | n <;> simp

theorem nameSection_pres (E : Extractors) (state : String) (cd : CustomerData)
    (text : String) :
    (nameSection E state cd text).service = cd.service ∧
    (nameSection E state cd text).date = cd.date ∧
    (nameSection E state cd text).phone = cd.phone := by
  unfold nameSection
  split_ifs
  · exact ⟨rfl, rfl, rfl⟩
  · obtain ⟨f1, f2, f3, f4⟩ := nameFallbackStep_pres E state
      (nameNestedTimeStep E (namePatternStep E cd text) text) text
    obtain ⟨g1, g2, g3, g4⟩ := nameNestedTimeStep_pres E (namePatternStep E cd text) text
    obtain ⟨p1, p2, p3, p4⟩ := namePatternStep_pres E cd text
    exact ⟨f1.trans (g2.trans p1), f2.trans (g3.trans p2), f4.trans (g4.trans p4)⟩

theorem nameSection_time_some (E : Extractors) (state : String) (cd : CustomerData)
    (text : String) (h : cd.time.isSome) :
    (nameSection E state cd text).time = cd.time := by
  unfold nameSection
  split_ifs
  · rfl
  · obtain ⟨-, -, f3, -⟩ := nameFallbackStep_pres E state
      (nameNestedTimeStep E (namePatternStep E cd text) text) text
    obtain ⟨-, -, p3, -⟩ := namePatternStep_pres E cd text
    rw [f3, nameNestedTimeStep_time_some E _ text (by rw [p3]; exact h), p3]

theorem nameSection_time_of_date_none (E : Extractors) (state : String)
    (cd : CustomerData) (text : String) (h : cd.date = none) :
    (nameSection E state cd text).time = cd.time := by
  unfold nameSection
  split_ifs
  · rfl
  · obtain ⟨-, -, f3, -⟩ := nameFallbackStep_pres E state
      (nameNestedTimeStep E (namePatternStep E cd text) text) text
    obtain ⟨-, p2, p3, -⟩ := namePatternStep_pres E cd text
    rw [f3, nameNestedTimeStep_date_none E _ text (by rw [p2]; exact h), p3]

theorem nameNestedTimeStep_time_imp (E : Extractors) (cd : CustomerData)
    (text : String) :
    (nameNestedTimeStep E cd text).time.isSome →
      cd.time.isSome ∨ cd.date.isSome := by
  rcases cd with ⟨n, sv, dt, tm, ph, pt, ut, cr, al, fn⟩
  unfold nameNestedTimeStep check_and_set_time
  repeat' split
  all_goals simp_all

theorem nameSection_time_imp (E : Extractors) (state : String) (cd : CustomerData)
    (text : String) :
    (nameSection E state cd text).time.isSome →
      cd.time.isSome ∨ cd.date.isSome := by
  unfold nameSection
  split_ifs
  · exact fun h => .inl h
  · intro h
    obtain ⟨-, -, f3, -⟩ := nameFallbackStep_pres E state
      (nameNestedTimeStep E (namePatternStep E cd text) text) text
    rw [f3] at h
    rcases nameNestedTimeStep_time_imp E (namePatternStep E cd text) text h with h1 | h1
    · obtain ⟨-, -, p3, -⟩ := namePatternStep_pres E cd text
      rw [p3] at h1
      exact .inl h1
    · obtain ⟨-, p2, -, -⟩ := namePatternStep_pres E cd text
      rw [p2] at h1
      exact .inr h1

theorem serviceSection_some (E : Extractors) (cd : CustomerData) (text : String)
    (h : cd.service.isSome) : serviceSection E cd text = cd := by
  unfold serviceSection
  rw [if_pos h]

theorem serviceSection_pres (E : Extractors) (cd : CustomerData) (text : String) :
    (serviceSection E cd text).name = cd.name ∧
    (serviceSection E cd text).date = cd.date ∧
    (serviceSection E cd text).time = cd.time ∧
    (serviceSection E cd text).phone = cd.phone := by
  rcases cd with ⟨n, sv, dt, tm, ph, pt, ut, cr, al, fn⟩
  unfold serviceSection
  repeat' split
  all_goals simp_all

theorem dateSection_some (E : Extractors) (cd : CustomerData) (text : String)
    (h : cd.date.isSome) : dateSection E cd text = cd := by
  unfold dateSection
  rw [if_pos h]

theorem dateSection_pres (E : Extractors) (cd : CustomerData) (text : String) :
    (dateSection E cd text).name = cd.name ∧
    (dateSection E cd text).service = cd.service ∧
    (dateSection E cd text).phone = cd.phone := by
  rcases cd with ⟨n, sv, dt, tm, ph, pt, ut, cr, al, fn⟩
  rcases pt with _ | pv
  all_goals unfold dateSection check_and_set_time
  all_goals repeat' split
  all_goals (try simp_all)
  all_goals (try (repeat' split))
  all_goals simp_all

theorem dateSection_inv (E : Extractors) (cd : CustomerData) (text : String)
    (hinv : cd.time.isSome → cd.date.isSome) :
    (dateSection E cd text).time.isSome → (dateSection E cd text).date.isSome := by
  rcases cd with ⟨n, sv, dt, tm, ph, pt, ut, cr, al, fn⟩
  rcases pt with _ | pv
  all_goals unfold dateSection check_and_set_time
  all_goals repeat' split
  all_goals (try simp_all)
  all_goals (try (repeat' split))
  all_goals simp_all

theorem timeSection_some (E : Extractors) (cd : CustomerData) (text : String)
    (h : cd.time.isSome) : timeSection E cd text = cd := by
  rcases cd with ⟨n, sv, dt, tm, ph, pt, ut, cr, al, fn⟩
  unfold timeSection check_and_set_time
  repeat' split
  all_goals simp_all

theorem timeSection_pres (E : Extractors) (cd : CustomerData) (text : String) :
    (timeSection E cd text).name = cd.name ∧
    (timeSection E cd text).service = cd.service ∧
    (timeSection E cd text).date = cd.date ∧
    (timeSection E cd text).phone = cd.phone := by
  rcases cd with ⟨n, sv, dt, tm, ph, pt, ut, cr, al, fn⟩
  unfold timeSection check_and_set_time
  repeat' split
  all_goals simp_all

theorem timeSection_inv (E : Extractors) (cd : CustomerData) (text : String)
    (hinv : cd.time.isSome → cd.date.isSome) :
    (timeSection E cd text).time.isSome → (timeSection E cd text).date.isSome := by
  rcases cd with ⟨n, sv, dt, tm, ph, pt, ut, cr, al, fn⟩
  unfold timeSection check_and_set_time
  repeat' split
  all_goals simp_all

theorem phoneSection_some (E : Extractors) (cd : CustomerData) (text : String)
    (h : cd.phone.isSome) : phoneSection E cd text = cd := by
  unfold phoneSection
  rw [if_pos h]

theorem phoneSection_pres (E : Extractors) (cd : CustomerData) (text : String) :
    (phoneSection E cd text).name = cd.name ∧
    (phoneSection E cd text).service = cd.service ∧
    (phoneSection E cd text).date = cd.date ∧
    (phoneSection E cd text).time = cd.time := by
  rcases cd with ⟨n, sv, dt, tm, ph, pt, ut, cr, al, fn⟩
  unfold phoneSection
  repeat' split
  all_goals simp_all

theorem ibNameStep_pres (E : ExtractorsIB) (cd : CustomerDataIB) (text : String) :
    (ibNameStep E cd text).service = cd.service ∧
    (ibNameStep E cd text).date = cd.date ∧
    (ibNameStep E cd text).time = cd.time ∧
    (ibNameStep E cd text).phone = cd.phone := by
  rcases cd with ⟨n, sv, dt, tm, ph⟩
  unfold ibNameStep
  repeat' split
  all_goals simp_all

theorem ibNameStep_id_of (E : ExtractorsIB) (cd : CustomerDataIB) (text : String)
    (h : cd.name.isSome ∨ E.namePattern text = none) :
    ibNameStep E cd text = cd := by
  rcases cd with ⟨n, sv, dt, tm, ph⟩
  unfold ibNameStep
  repeat' split
  all_goals simp_all

theorem ibNameStep_none (E : ExtractorsIB) (cd : CustomerDataIB) (text : String)
    (h : (ibNameStep E cd text).name = none) : E.namePattern text = none := by
  rcases cd with ⟨n, sv, dt, tm, ph⟩
  unfold ibNameStep at h
  rcases hnp : E.namePattern text with _ | nv
  · rfl
  · rw [hnp] at h
    rcases n with _ | n0 <;> simp_all

theorem ibServiceStep_pres (E : ExtractorsIB) (cd : CustomerDataIB) (text : String) :
    (ibServiceStep E cd text).name = cd.name ∧
    (ibServiceStep E cd text).date = cd.date ∧
    (ibServiceStep E cd text).time = cd.time ∧
    (ibServiceStep E cd text).phone = cd.phone := by
  rcases cd with ⟨n, sv, dt, tm, ph⟩
  unfold ibServiceStep
  repeat' split
  all_goals simp_all

theorem ibServiceStep_id_of (E : ExtractorsIB) (cd : CustomerDataIB) (text : String)
    (h : cd.service.isSome ∨ E.serviceMatch text = none) :
    ibServiceStep E cd text = cd := by
  rcases cd with ⟨n, sv, dt, tm, ph⟩
  unfold ibServiceStep
  repeat' split
  all_goals simp_all

theorem ibServiceStep_none (E : ExtractorsIB) (cd : CustomerDataIB) (text : String)
    (h : (ibServiceStep E cd text).service = none) : E.serviceMatch text = none := by
  rcases cd with ⟨n, sv, dt, tm, ph⟩
  unfold ibServiceStep at h
  rcases hsm : E.serviceMatch text with _ | sv2
  · rfl
  · rw [hsm] at h
    rcases sv with _ | s0 <;> simp_all

theorem ibDateStep_pres (E : ExtractorsIB) (cd : CustomerDataIB) (text : String) :
    (ibDateStep E cd text).name = cd.name ∧
    (ibDateStep E cd text).service = cd.service ∧
    (ibDateStep E cd text).time = cd.time ∧
    (ibDateStep E cd text).phone = cd.phone := by
  rcases cd with ⟨n, sv, dt, tm, ph⟩
  unfold ibDateStep
  repeat' split
  all_goals simp_all

theorem ibDateStep_id_of (E : ExtractorsIB) (cd : CustomerDataIB) (text : String)
    (h : cd.date.isSome ∨ E.extractDate text = none) :
    ibDateStep E cd text = cd := by
  rcases cd with ⟨n, sv, dt, tm, ph⟩
  unfold ibDateStep
  repeat' split
  all_goals simp_all

theorem ibDateStep_none (E : ExtractorsIB) (cd : CustomerDataIB) (text : String)
    (h : (ibDateStep E cd text).date = none) : E.extractDate text = none := by
  rcases cd with ⟨n, sv, dt, tm, ph⟩
  unfold ibDateStep at h
  rcases hed : E.extractDate text with _ | dv
  · rfl
  · rw [hed] at h
    rcases dt with _ | d0 <;> simp_all

/-- The value the time block would assign, if any: the parsed time when
on the grid, else its nearest available neighbour. -/
def ibTimeChoice (E : ExtractorsIB) (text : String) : Option String :=
  match E.extractTime text with
  | some t => if t ∈ E.available_times then some t else E.nearestAvail t
  | none => none

theorem ibTimeStep_eq (E : ExtractorsIB) (cd : CustomerDataIB) (text : String) :
    ibTimeStep E cd text =
      if cd.time.isSome then cd
      else
        match ibTimeChoice E text with
        | some t => { cd with time := some t }
        | none => cd := by
  rcases cd with ⟨n, sv, dt, tm, ph⟩
  unfold ibTimeStep ibTimeChoice
  repeat' split
  all_goals simp_all

theorem ibTimeStep_pres (E : ExtractorsIB) (cd : CustomerDataIB) (text : String) :
    (ibTimeStep E cd text).name = cd.name ∧
    (ibTimeStep E cd text).service = cd.service ∧
    (ibTimeStep E cd text).date = cd.date ∧
    (ibTimeStep E cd text).phone = cd.phone := by
  rw [ibTimeStep_eq]
  rcases cd with ⟨n, sv, dt, tm, ph⟩
  repeat' split
  all_goals simp_all

theorem ibTimeStep_id_of (E : ExtractorsIB) (cd : CustomerDataIB) (text : String)
    (h : cd.time.isSome ∨ ibTimeChoice E text = none) :
    ibTimeStep E cd text = cd := by
  rw [ibTimeStep_eq]
  rcases cd with ⟨n, sv, dt, tm, ph⟩
  repeat' split
  all_goals simp_all

theorem ibTimeStep_none (E : ExtractorsIB) (cd : CustomerDataIB) (text : String)
    (h : (ibTimeStep E cd text).time = none) : ibTimeChoice E text = none := by
  rw [ibTimeStep_eq] at h
  rcases cd with ⟨n, sv, dt, tm, ph⟩
  rcases htc : ibTimeChoice E text with _ | tv
  · rfl
  · rw [htc] at h
    rcases tm with _ | t0 <;> simp_all

theorem ibPhoneStep_pres (E : ExtractorsIB) (cd : CustomerDataIB) (text : String) :
    (ibPhoneStep E cd text).name = cd.name ∧
    (ibPhoneStep E cd text).service = cd.service ∧
    (ibPhoneStep E cd text).date = cd.date ∧
    (ibPhoneStep E cd text).time = cd.time := by
  rcases cd with ⟨n, sv, dt, tm, ph⟩
  unfold ibPhoneStep
  repeat' split
  all_goals simp_all

theorem ibPhoneStep_idem (E : ExtractorsIB) (cd : CustomerDataIB) (text : String) :
    ibPhoneStep E (ibPhoneStep E cd text) text = ibPhoneStep E cd text := by
  rcases cd with ⟨n, sv, dt, tm, ph⟩
  unfold ibPhoneStep
  rcases hpp : E.phonePattern text with _ | pv <;> simp_all

theorem ib_extract_no_overwrite (E : ExtractorsIB) (cd : CustomerDataIB)
    (text : String) :
    (cd.name.isSome → (ib_extract_booking_info E cd text).name = cd.name) ∧
    (cd.service.isSome → (ib_extract_booking_info E cd text).service = cd.service) ∧
    (cd.date.isSome → (ib_extract_booking_info E cd text).date = cd.date) ∧
    (cd.time.isSome → (ib_extract_booking_info E cd text).time = cd.time) := by
  unfold ib_extract_booking_info
  obtain ⟨p1, p2, p3, p4⟩ := ibPhoneStep_pres E
    (ibTimeStep E (ibDateStep E (ibServiceStep E (ibNameStep E cd text) text) text) text) text
  obtain ⟨t1, t2, t3, t4⟩ := ibTimeStep_pres E
    (ibDateStep E (ibServiceStep E (ibNameStep E cd text) text) text) text
  obtain ⟨d1, d2, d3, d4⟩ := ibDateStep_pres E
    (ibServiceStep E (ibNameStep E cd text) text) text
  obtain ⟨s1, s2, s3, s4⟩ := ibServiceStep_pres E (ibNameStep E cd text) text
  obtain ⟨n1, n2, n3, n4⟩ := ibNameStep_pres E cd text
  refine ⟨?_, ?_, ?_, ?_⟩
  · intro h
    rw [p1, t1, d1, s1, ibNameStep_id_of E cd text (.inl h)]
  · intro h
    rw [p2, t2, d2,
      ibServiceStep_id_of E (ibNameStep E cd text) text (.inl (by rw [n1]; exact h)),
      n1]
  · intro h
    rw [p3, t3,
      ibDateStep_id_of E (ibServiceStep E (ibNameStep E cd text) text) text
        (.inl (by rw [s2, n2]; exact h)),
      s2, n2]
  · intro h
    rw [p4,
      ibTimeStep_id_of E (ibDateStep E (ibServiceStep E (ibNameStep E cd text) text) text)
        text (.inl (by rw [d3, s3, n3]; exact h)),
      d3, s3, n3]

theorem ib_extract_idempotent (E : ExtractorsIB) (cd : CustomerDataIB)
    (text : String) :
    ib_extract_booking_info E (ib_extract_booking_info E cd text) text
      = ib_extract_booking_info E cd text := by
  have hy : ib_extract_booking_info E cd text = ibPhoneStep E
      (ibTimeStep E (ibDateStep E (ibServiceStep E (ibNameStep E cd text) text) text) text)
      text := rfl
  obtain ⟨p1, p2, p3, p4⟩ := ibPhoneStep_pres E
    (ibTimeStep E (ibDateStep E (ibServiceStep E (ibNameStep E cd text) text) text) text) text
  obtain ⟨t1, t2, t3, t4⟩ := ibTimeStep_pres E
    (ibDateStep E (ibServiceStep E (ibNameStep E cd text) text) text) text
  obtain ⟨d1, d2, d3, d4⟩ := ibDateStep_pres E
    (ibServiceStep E (ibNameStep E cd text) text) text
  obtain ⟨s1, s2, s3, s4⟩ := ibServiceStep_pres E (ibNameStep E cd text) text
  have hN : ibNameStep E (ib_extract_booking_info E cd text) text
      = ib_extract_booking_info E cd text := by
    rcases hn : (ib_extract_booking_info E cd text).name with _ | nv
    · refine ibNameStep_id_of E _ text (.inr ?_)
      apply ibNameStep_none E cd text
      rw [hy, p1, t1, d1, s1] at hn
      exact hn
    · exact ibNameStep_id_of E _ text (.inl (by rw [hn]; rfl))
  have hS : ibServiceStep E (ib_extract_booking_info E cd text) text
      = ib_extract_booking_info E cd text := by
    rcases hn : (ib_extract_booking_info E cd text).service with _ | sv2
    · refine ibServiceStep_id_of E _ text (.inr ?_)
      apply ibServiceStep_none E (ibNameStep E cd text) text
      rw [hy, p2, t2, d2] at hn
      exact hn
    · exact ibServiceStep_id_of E _ text (.inl (by rw [hn]; rfl))
  have hD : ibDateStep E (ib_extract_booking_info E cd text) text
      = ib_extract_booking_info E cd text := by
    rcases hn : (ib_extract_booking_info E cd text).date with _ | dv
    · refine ibDateStep_id_of E _ text (.inr ?_)
      apply ibDateStep_none E (ibServiceStep E (ibNameStep E cd text) text) text
      rw [hy, p3, t3] at hn
      exact hn
    · exact ibDateStep_id_of E _ text (.inl (by rw [hn]; rfl))
  have hT : ibTimeStep E (ib_extract_booking_info E cd text) text
      = ib_extract_booking_info E cd text := by
    rcases hn : (ib_extract_booking_info E cd text).time with _ | tv
    · refine ibTimeStep_id_of E _ text (.inr ?_)
      apply ibTimeStep_none E
        (ibDateStep E (ibServiceStep E (ibNameStep E cd text) text) text) text
      rw [hy, p4] at hn
      exact hn
    · exact ibTimeStep_id_of E _ text (.inl (by rw [hn]; rfl))
  calc ib_extract_booking_info E (ib_extract_booking_info E cd text) text
      = ibPhoneStep E (ibTimeStep E (ibDateStep E (ibServiceStep E
          (ibNameStep E (ib_extract_booking_info E cd text) text) text) text) text)
          text := rfl
    _ = ibPhoneStep E (ib_extract_booking_info E cd text) text := by
        rw [hN, hS, hD, hT]
    _ = ib_extract_booking_info E cd text := by
        rw [hy, ibPhoneStep_idem]

/-- Concrete oracle instantiation exhibiting `app101.py`'s `"9:00"`
fallback: for the utterance `"tomorrow at 9:00"`, the name patterns
fail, `extract_date` resolves the relative date, `extract_time` fails
(no am/pm marker, and the colon defeats the numeric patterns), the text
contains `"9:00"`, the calendar is configured and the 9:00 AM slot is
free. -/
def nineExtractors : Extractors :=
  { namePattern := fun _ => none
    nameFallback := fun _ => none
    serviceMatch := fun _ => none
    extractDate := fun _ => some "Friday, June 6"
    extractTime := fun _ => none
    phonePattern := fun _ => none
    contains900 := fun _ => true
    hasCalendar := true
    checkAvail := fun _ _ => (true, none)
    findSlots := fun _ _ => [] }

/-- Concrete oracle instantiation for the phone-overwrite
counterexample: the utterance contains the phone number 999-888-7777
and nothing else the extractor recognises. -/
def ibPhoneExtractors : ExtractorsIB :=
  { namePattern := fun _ => none
    serviceMatch := fun _ => none
    extractDate := fun _ => none
    extractTime := fun _ => none
    phonePattern := fun _ => some "9998887777"
    available_times := []
    nearestAvail := fun _ => none }

/-- **C7** (counterexample).  `infobridge.py`'s extractor overwrites a
filled booking field: with `phone` already set to `5551234567`, the
utterance `"my number is 999-888-7777"` replaces it, because the final
phone assignment has no unset guard. -/
theorem extract_overwrites_phone_counterexample :
    (ib_extract_booking_info ibPhoneExtractors
        ⟨some "Jane", none, none, none, some "5551234567"⟩
        "my number is 999-888-7777").phone = some "9998887777" ∧
    (some "9998887777" : Option String) ≠ some "5551234567" := by
  decide

/-- **C7** (amended).  Mutation discipline of the two extractors:
`app101.py`'s extractor never overwrites a filled `name`, `service`,
`date`, `time` or `phone` field — given the invariant that a filled time
implies a filled date, which it preserves — but it is NOT idempotent:
when the utterance contains `"9:00"` with no otherwise-parseable time
together with a date, and the name is still unset, the second run books
9:00 AM through the nested fallback that only runs while gathering a
name (third conjunct).  `infobridge.py`'s extractor never overwrites
`name`, `service`, `date` or `time` (but overwrites `phone`, see the
counterexample) and is idempotent. -/
theorem extract_field_discipline (E : Extractors) (state : String)
    (cd : CustomerData) (text : String)
    (hinv : cd.time.isSome → cd.date.isSome) :
    ((cd.name.isSome → (extract_booking_info E state cd text).name = cd.name) ∧
     (cd.service.isSome →
       (extract_booking_info E state cd text).service = cd.service) ∧
     (cd.date.isSome → (extract_booking_info E state cd text).date = cd.date) ∧
     (cd.time.isSome → (extract_booking_info E state cd text).time = cd.time) ∧
     (cd.phone.isSome → (extract_booking_info E state cd text).phone = cd.phone)) ∧
    ((extract_booking_info E state cd text).time.isSome →
      (extract_booking_info E state cd text).date.isSome) ∧
    (extract_booking_info nineExtractors "greeting"
        (extract_booking_info nineExtractors "greeting" CustomerData.empty
          "tomorrow at 9:00") "tomorrow at 9:00"
      ≠ extract_booking_info nineExtractors "greeting" CustomerData.empty
          "tomorrow at 9:00") ∧
    (∀ (EI : ExtractorsIB) (cdI : CustomerDataIB) (tI : String),
      ((cdI.name.isSome → (ib_extract_booking_info EI cdI tI).name = cdI.name) ∧
       (cdI.service.isSome →
         (ib_extract_booking_info EI cdI tI).service = cdI.service) ∧
       (cdI.date.isSome → (ib_extract_booking_info EI cdI tI).date = cdI.date) ∧
       (cdI.time.isSome → (ib_extract_booking_info EI cdI tI).time = cdI.time)) ∧
      ib_extract_booking_info EI (ib_extract_booking_info EI cdI tI) tI
        = ib_extract_booking_info EI cdI tI) := by
  refine ⟨⟨?_, ?_, ?_, ?_, ?_⟩, ?_, ?_,
    fun EI cdI tI => ⟨ib_extract_no_overwrite EI cdI tI, ib_extract_idempotent EI cdI tI⟩⟩
  · intro hn
    rw [extract_booking_info, nameSection_some E state cd text hn]
    obtain ⟨s1, -, -, -⟩ := serviceSection_pres E cd text
    obtain ⟨d1, -, -⟩ := dateSection_pres E (serviceSection E cd text) text
    obtain ⟨t1, -, -, -⟩ := timeSection_pres E
      (dateSection E (serviceSection E cd text) text) text
    obtain ⟨p1, -, -, -⟩ := phoneSection_pres E
      (timeSection E (dateSection E (serviceSection E cd text) text) text) text
    rw [p1, t1, d1, s1]
  · intro hs
    rw [extract_booking_info]
    obtain ⟨ns1, -, -⟩ := nameSection_pres E state cd text
    rw [serviceSection_some E (nameSection E state cd text) text
      (by rw [ns1]; exact hs)]
    obtain ⟨-, d2, -⟩ := dateSection_pres E (nameSection E state cd text) text
    obtain ⟨-, t2, -, -⟩ := timeSection_pres E
      (dateSection E (nameSection E state cd text) text) text
    obtain ⟨-, p2, -, -⟩ := phoneSection_pres E
      (timeSection E (dateSection E (nameSection E state cd text) text) text) text
    rw [p2, t2, d2, ns1]
  · intro hd
    rw [extract_booking_info]
    obtain ⟨-, nd, -⟩ := nameSection_pres E state cd text
    obtain ⟨-, svd, -, -⟩ := serviceSection_pres E (nameSection E state cd text) text
    rw [dateSection_some E _ text (by rw [svd, nd]; exact hd)]
    obtain ⟨-, -, td, -⟩ := timeSection_pres E
      (serviceSection E (nameSection E state cd text) text) text
    obtain ⟨-, -, pd, -⟩ := phoneSection_pres E
      (timeSection E (serviceSection E (nameSection E state cd text) text) text) text
    rw [pd, td, svd, nd]
  · intro ht
    have hd := hinv ht
    rw [extract_booking_info]
    have hnt : (nameSection E state cd text).time = cd.time :=
      nameSection_time_some E state cd text ht
    obtain ⟨-, nd, -⟩ := nameSection_pres E state cd text
    obtain ⟨-, svd, svt, -⟩ := serviceSection_pres E (nameSection E state cd text) text
    rw [dateSection_some E _ text (by rw [svd, nd]; exact hd)]
    rw [timeSection_some E _ text (by rw [svt, hnt]; exact ht)]
    obtain ⟨-, -, -, pt1⟩ := phoneSection_pres E
      (serviceSection E (nameSection E state cd text) text) text
    rw [pt1, svt, hnt]
  · intro hp
    rw [extract_booking_info]
    obtain ⟨-, -, nph⟩ := nameSection_pres E state cd text
    obtain ⟨-, -, -, svp⟩ := serviceSection_pres E (nameSection E state cd text) text
    obtain ⟨-, -, dp⟩ := dateSection_pres E
      (serviceSection E (nameSection E state cd text) text) text
    obtain ⟨-, -, -, tp⟩ := timeSection_pres E
      (dateSection E (serviceSection E (nameSection E state cd text) text) text) text
    rw [phoneSection_some E _ text (by rw [tp, dp, svp, nph]; exact hp)]
    rw [tp, dp, svp, nph]
  · intro h
    obtain ⟨-, -, pd2, pt2⟩ := phoneSection_pres E
      (timeSection E (dateSection E
        (serviceSection E (nameSection E state cd text) text) text) text) text
    rw [extract_booking_info] at h ⊢
    rw [pt2] at h
    rw [pd2]
    refine timeSection_inv E _ text ?_ h
    intro h2
    refine dateSection_inv E _ text ?_ h2
    intro h3
    obtain ⟨-, svd, svt, -⟩ := serviceSection_pres E (nameSection E state cd text) text
    rw [svt] at h3
    rw [svd]
    obtain ⟨-, nd, -⟩ := nameSection_pres E state cd text
    rcases nameSection_time_imp E state cd text h3 with h4 | h4
    · rw [nd]
      exact hinv h4
    · rw [nd]
      exact h4
  · decide

/-- Witness for **C7** (amended): a filled name survives an extraction
pass. -/
theorem extract_field_discipline_witness :
    (extract_booking_info nineExtractors "greeting"
        { CustomerData.empty with name := some "Jane" } "tomorrow at 9:00").name
      = some "Jane" :=
  ((extract_field_discipline nineExtractors "greeting"
      { CustomerData.empty with name := some "Jane" } "tomorrow at 9:00"
      (by decide)).1.1) (by decide)

/-! ## Completing a booking

`complete_booking` of `app101.py` (lines 1730-1795) and
`DataStore.add_appointment` (lines 903-906).  The collaborator results —
the final availability check, the two `find_next_available_slots` calls
and the `create_appointment` triple — are passed in as values, since the
claim is about how `complete_booking` reacts to them.  The returned
utterance is abstracted to which message template is chosen. -/

structure Appointment where
  customer_name : String
  phone_number : String
  service : String
  date : String
  time : String
  status : String
  google_event_id : Option String
  notes : Option String
deriving DecidableEq

/-- `DataStore.add_appointment`: append under the store lock (and save). -/
def add_appointment (store : List Appointment) (apt : Appointment) :
    List Appointment :=
  store ++ [apt]

/-- Which of `complete_booking`'s utterance templates is returned. -/
inductive BookingOutcome
  /-- the final check found the slot taken and alternatives exist -/
  | conflictWithAlternatives (alts : List String)
  /-- the final check found the slot taken, no alternatives that day -/
  | conflictNoAlternatives
  /-- the insert failed with an already-booked error and alternatives exist -/
  | insertConflictWithAlternatives (alts : List String)
  /-- the insert failed with an already-booked error, no alternatives -/
  | insertConflictNoAlternatives
  /-- calendar event created: confirmation message -/
  | confirmedBooking
  /-- no calendar success: appointment noted for manual follow-up -/
  | notedBooking
deriving DecidableEq

/-- The `"already booked" in (error_msg or "").lower()` test of
`complete_booking`: among the error messages `create_appointment` can
produce, exactly the conflict message built from a genuine
already-booked check result contains that substring. -/
def errorMentionsAlreadyBooked : Option CreateError → Bool
  | some (.slotConflict (.alreadyBookedFrom _ _)) => true
  | _ => false

/-- `app101.py`'s `complete_booking`: a final availability check blocks
the booking outright (alternatives offered when any exist); then the
calendar insert is attempted, an already-booked failure again aborts
with alternatives, any other failure downgrades to `pending_manual`;
only the non-aborting paths reach `DataStore.add_appointment`. -/
def complete_booking (hasCal : Bool) (checkResult : Bool × Option ConflictDetail)
    (alts1 alts2 : List String)
    (createResult : Bool × Option String × Option CreateError)
    (store : List Appointment) (apt : Appointment) :
    BookingOutcome × List Appointment :=
  if hasCal ∧ checkResult.1 = false then
    if alts1 ≠ [] then (.conflictWithAlternatives alts1, store)
    else (.conflictNoAlternatives, store)
  else
    if hasCal then
      if createResult.1 = true ∧ createResult.2.1.isSome then
        (.confirmedBooking,
         add_appointment store
           { apt with status := "confirmed", google_event_id := createResult.2.1 })
      else if errorMentionsAlreadyBooked createResult.2.2 then
        if alts2 ≠ [] then (.insertConflictWithAlternatives alts2, store)
        else (.insertConflictNoAlternatives, store)
      else
        (.notedBooking,
         add_appointment store
           { apt with status := "pending_manual",
                      notes := some "Calendar sync failed" })
    else (.notedBooking, add_appointment store apt)

/-- **C10** (confirmed).  On every conflict outcome — the final
availability check reporting the slot taken, or the calendar insert
failing with an already-booked error — `complete_booking` returns the
corresponding recovery utterance (offering the fetched alternatives
whenever any exist) and the appointment store is left unchanged. -/
theorem booking_conflict_store_unchanged
    (checkResult : Bool × Option ConflictDetail) (alts1 alts2 : List String)
    (createResult : Bool × Option String × Option CreateError)
    (store : List Appointment) (apt : Appointment) :
    (checkResult.1 = false →
      (complete_booking true checkResult alts1 alts2 createResult store apt).2
          = store ∧
      ((complete_booking true checkResult alts1 alts2 createResult store apt).1
            = .conflictWithAlternatives alts1 ∧ alts1 ≠ [] ∨
       (complete_booking true checkResult alts1 alts2 createResult store apt).1
            = .conflictNoAlternatives ∧ alts1 = [])) ∧
    (checkResult.1 = true → createResult.1 = false →
      errorMentionsAlreadyBooked createResult.2.2 = true →
      (complete_booking true checkResult alts1 alts2 createResult store apt).2
          = store ∧
      ((complete_booking true checkResult alts1 alts2 createResult store apt).1
            = .insertConflictWithAlternatives alts2 ∧ alts2 ≠ [] ∨
       (complete_booking true checkResult alts1 alts2 createResult store apt).1
            = .insertConflictNoAlternatives ∧ alts2 = [])) := by
  constructor
  · intro hchk
    unfold complete_booking
    rcases halts : alts1 with _ | ⟨a, rest⟩ <;> simp_all
  · intro hchk hcr herr
    unfold complete_booking
    rcases halts : alts2 with _ | ⟨a, rest⟩ <;> simp_all

/-- Witness for **C10**: with the 2:00 PM slot reported taken and 3:00 PM
free, the booking is blocked, 3:00 PM is offered, and the store still
holds exactly its previous appointments (here: none). -/
theorem booking_conflict_store_unchanged_witness :
    (complete_booking true (false, some (.alreadyBookedFrom 840 900))
        ["3:00 PM"] [] (false, none, none) []
        ⟨"Jane", "5551234567", "Cleaning", "Friday, June 6", "2:00 PM",
         "pending", none, none⟩).2 = [] :=
  ((booking_conflict_store_unchanged (false, some (.alreadyBookedFrom 840 900))
      ["3:00 PM"] [] (false, none, none) []
      ⟨"Jane", "5551234567", "Cleaning", "Friday, June 6", "2:00 PM",
       "pending", none, none⟩).1 rfl).1
